import Mathlib

/-!
Verification of the Chronosphere frontend against its specification.

Numeric values are embedded as rationals. Each frontend function is
translated from its TypeScript/JavaScript source; a few backend
components that exist only in the specification are modelled from the
spec's words and marked as such in their doc comments.
-/

namespace Chronosphere

/-- Tier of a mispricing signal (spec section 3, MispricingSignal). -/
inductive Tier
  | SKIP
  | LEAN
  | STRONG
  deriving DecidableEq, Repr

/-- From MispricingGauge.tsx: Math.max(-1, Math.min(1, mispricing)). -/
def clampedValue (mispricing : ℚ) : ℚ :=
  max (-1) (min 1 mispricing)

/-- From MispricingGauge.tsx: isPositive = clampedValue >= 0. -/
def isPositive (mispricing : ℚ) : Bool :=
  clampedValue mispricing ≥ 0

/-- From MispricingGauge.tsx: Math.abs(clampedValue) >= 0.1. -/
def isSignificant (mispricing : ℚ) : Bool :=
  |clampedValue mispricing| ≥ (0.1 : ℚ)

/-- From MispricingGauge.tsx: Math.abs(clampedValue) >= 0.2. -/
def isHighlySignificant (mispricing : ℚ) : Bool :=
  |clampedValue mispricing| ≥ (0.2 : ℚ)

/-- From MispricingGauge.tsx: the getLabel function. -/
def getLabel (mispricing : ℚ) : String :=
  if |clampedValue mispricing| < (0.05 : ℚ) then "Fairly Priced"
  else if isPositive mispricing then
    (if isHighlySignificant mispricing then "Strong Buy Signal" else "Undervalued")
  else
    (if isHighlySignificant mispricing then "Strong Sell Signal" else "Overvalued")

/-- Reading of the gauge labels as spec tiers: Fairly Priced is SKIP,
Undervalued/Overvalued are the LEAN band, Strong Buy/Sell Signal are STRONG. -/
def tierOfLabel (l : String) : Tier :=
  if l = "Fairly Priced" then Tier.SKIP
  else if l = "Undervalued" then Tier.LEAN
  else if l = "Overvalued" then Tier.LEAN
  else Tier.STRONG

/-- Modelled from the spec: the generic clamp used by MarketComparator
(whose code is not in src/): clamp(x, lo, hi). -/
def clamp (lo hi x : ℚ) : ℚ :=
  max lo (min hi x)

/-- Modelled from the spec: MarketComparator.compare computes
index = clamp(calibrated - implied, -1, 1); the comparator code is not in src/. -/
def mispricingIndex (calibrated implied : ℚ) : ℚ :=
  clamp (-1) 1 (calibrated - implied)

/-- The absolute value of the gauge's clamped value is the absolute input
capped at 1. -/
lemma abs_clampedValue (m : ℚ) : |clampedValue m| = min 1 |m| := by
  unfold clampedValue
  rcases le_total 0 m with h | h
  · have h1 : (-1 : ℚ) ≤ min 1 m := le_min (by norm_num) (by linarith)
    rw [max_eq_right h1, abs_of_nonneg (le_min (by norm_num) h), abs_of_nonneg h]
  · have h1 : min 1 m = m := min_eq_right (by linarith)
    rw [h1, abs_of_nonpos (max_le (by norm_num) h), abs_of_nonpos h]
    rcases le_total (-1 : ℚ) m with h2 | h2
    · rw [max_eq_right h2, min_eq_right (by linarith)]
    · rw [max_eq_left h2, min_eq_left (by linarith)]
      norm_num

/-- C1: for every mispricing index value, the gauge assigns the SKIP label
when the absolute index is below 0.05, the LEAN band (Undervalued or
Overvalued) when it is in [0.05, 0.20), and the STRONG band at or above
0.20, with the strong label favoring the positive (Buy) side exactly on
the positive side of the index; in particular 0.03 is SKIP, 0.12 is LEAN,
0.25 is STRONG favoring the positive side and -0.30 is STRONG favoring
the negative side. -/
theorem C1_tiering (idx : ℚ) :
    (|idx| < (0.05 : ℚ) → tierOfLabel (getLabel idx) = Tier.SKIP) ∧
    ((0.05 : ℚ) ≤ |idx| → |idx| < (0.20 : ℚ) → tierOfLabel (getLabel idx) = Tier.LEAN) ∧
    ((0.20 : ℚ) ≤ |idx| → tierOfLabel (getLabel idx) = Tier.STRONG) ∧
    ((0.20 : ℚ) ≤ idx → getLabel idx = "Strong Buy Signal") ∧
    (idx ≤ (-0.20 : ℚ) → getLabel idx = "Strong Sell Signal") ∧
    tierOfLabel (getLabel (0.03 : ℚ)) = Tier.SKIP ∧
    tierOfLabel (getLabel (0.12 : ℚ)) = Tier.LEAN ∧
    getLabel (0.25 : ℚ) = "Strong Buy Signal" ∧
    getLabel (-0.30 : ℚ) = "Strong Sell Signal" := by
  have skip : ∀ m : ℚ, |m| < (0.05 : ℚ) → tierOfLabel (getLabel m) = Tier.SKIP := by
    intro m h
    have hc : |clampedValue m| < (0.05 : ℚ) :=
      lt_of_le_of_lt (by rw [abs_clampedValue]; exact min_le_right _ _) h
    simp [getLabel, tierOfLabel, hc]
  have lean_band : ∀ m : ℚ, (0.05 : ℚ) ≤ |m| → |m| < (0.20 : ℚ) →
      tierOfLabel (getLabel m) = Tier.LEAN := by
    intro m h1 h2
    have he : |clampedValue m| = |m| := by
      rw [abs_clampedValue]; exact min_eq_right (by linarith)
    have hns : ¬ |clampedValue m| < (0.05 : ℚ) := by rw [he]; exact not_lt.mpr h1
    have hhs : isHighlySignificant m = false := by
      unfold isHighlySignificant
      rw [he]
      simp only [decide_eq_false_iff_not, not_le]
      linarith
    cases hp : isPositive m with
    | false => simp [getLabel, tierOfLabel, hns, hp, hhs]
    | true => simp [getLabel, tierOfLabel, hns, hp, hhs]
  have buy : ∀ m : ℚ, (0.20 : ℚ) ≤ m → getLabel m = "Strong Buy Signal" := by
    intro m h
    have habs : (0.20 : ℚ) ≤ |m| := le_trans h (le_abs_self m)
    have hge : (0.20 : ℚ) ≤ |clampedValue m| := by
      rw [abs_clampedValue]; exact le_min (by norm_num) habs
    have hns : ¬ |clampedValue m| < (0.05 : ℚ) := by push_neg; linarith
    have hhs : isHighlySignificant m = true := by
      unfold isHighlySignificant
      simp only [ge_iff_le, decide_eq_true_eq]
      linarith
    have hpos : (0 : ℚ) ≤ clampedValue m :=
      le_trans (le_min (by norm_num) (by linarith)) (le_max_right _ _)
    have hp : isPositive m = true := by
      unfold isPositive
      simp only [ge_iff_le, decide_eq_true_eq]
      exact hpos
    simp [getLabel, hns, hp, hhs]
  have sell : ∀ m : ℚ, m ≤ (-0.20 : ℚ) → getLabel m = "Strong Sell Signal" := by
    intro m h
    have habs : (0.20 : ℚ) ≤ |m| := by
      rw [abs_of_nonpos (by linarith)]; linarith
    have hge : (0.20 : ℚ) ≤ |clampedValue m| := by
      rw [abs_clampedValue]; exact le_min (by norm_num) habs
    have hns : ¬ |clampedValue m| < (0.05 : ℚ) := by push_neg; linarith
    have hhs : isHighlySignificant m = true := by
      unfold isHighlySignificant
      simp only [ge_iff_le, decide_eq_true_eq]
      linarith
    have hneg : clampedValue m < 0 := by
      unfold clampedValue
      have hm : min 1 m = m := min_eq_right (by linarith)
      rw [hm]
      exact max_lt (by norm_num) (by linarith)
    have hp : isPositive m = false := by
      unfold isPositive
      simp only [ge_iff_le, decide_eq_false_iff_not, not_le]
      exact hneg
    simp [getLabel, hns, hp, hhs]
  have strongT : ∀ m : ℚ, (0.20 : ℚ) ≤ |m| → tierOfLabel (getLabel m) = Tier.STRONG := by
    intro m h
    rcases le_total 0 m with hm | hm
    · rw [buy m (by rwa [abs_of_nonneg hm] at h)]
      decide
    · rw [sell m (by rw [abs_of_nonpos hm] at h; linarith)]
      decide
  refine ⟨skip idx, lean_band idx, strongT idx, buy idx, sell idx,
    skip _ (by norm_num [abs_lt]), lean_band _ (by norm_num [le_abs]) (by norm_num [abs_lt]),
    buy _ (by norm_num), sell _ (by norm_num)⟩

/-- Witness for C1 at concrete indices 0.03, 0.12 and 0.25. -/
theorem C1_tiering_witness :
    tierOfLabel (getLabel (0.03 : ℚ)) = Tier.SKIP ∧
    tierOfLabel (getLabel (0.12 : ℚ)) = Tier.LEAN ∧
    tierOfLabel (getLabel (0.25 : ℚ)) = Tier.STRONG :=
  ⟨(C1_tiering (0.03 : ℚ)).1 (by norm_num [abs_lt]),
   (C1_tiering (0.12 : ℚ)).2.1 (by norm_num [le_abs]) (by norm_num [abs_lt]),
   (C1_tiering (0.25 : ℚ)).2.2.1 (by norm_num [le_abs])⟩

/-- C2: the mispricing index is the calibrated probability minus the
market-implied probability clamped to [-1, 1], and the clamped value used
for display and tiering always lies in [-1, 1]. -/
theorem C2_index_bounds (calibrated implied m : ℚ) :
    mispricingIndex calibrated implied = clampedValue (calibrated - implied) ∧
    -1 ≤ mispricingIndex calibrated implied ∧
    mispricingIndex calibrated implied ≤ 1 ∧
    -1 ≤ clampedValue m ∧ clampedValue m ≤ 1 := by
  refine ⟨rfl, ?_, ?_, ?_, ?_⟩
  · exact le_max_left _ _
  · exact max_le (by norm_num) (min_le_left _ _)
  · exact le_max_left _ _
  · exact max_le (by norm_num) (min_le_left _ _)

/-- JavaScript Math.round on a rational: floor(x + 1/2). -/
def jsRound (x : ℚ) : ℤ := ⌊x + 1/2⌋

/-- From the unnamed MatchDetailPage source (part_003): getBetSignal over
the rounded percent probabilities radiantProb and direProb. -/
def getBetSignal (radiantProb direProb : ℤ) : String :=
  if radiantProb ≥ 65 then "STRONG VALUE - RADIANT"
  else if direProb ≥ 65 then "STRONG VALUE - DIRE"
  else if radiantProb ≥ 55 then "LEAN RADIANT"
  else if direProb ≥ 55 then "LEAN DIRE"
  else "CLOSE MATCH - SKIP"

/-- Modelled from the spec: the MarketComparator tiering taken with its
thresholds as external configuration parameters (skipT below which the
tier is SKIP and strongT at or above which it is STRONG); the comparator
code is not in src/. -/
def tierWith (skipT strongT idx : ℚ) : Tier :=
  if |idx| < skipT then Tier.SKIP
  else if |idx| < strongT then Tier.LEAN
  else Tier.STRONG

/-- C3 evidence: at radiant win probability 0.66 against a mock market
(implied 0.5, index 0.16), the configurable comparator with the spec's
default thresholds 0.05/0.20 yields LEAN, but the shipped getBetSignal,
whose probability cutoffs 65 and 55 are hard-coded literals, reports a
STRONG value signal. -/
theorem C3_hardcoded_thresholds :
    getBetSignal (jsRound ((66/100 : ℚ) * 100)) (jsRound ((34/100 : ℚ) * 100))
      = "STRONG VALUE - RADIANT" ∧
    tierWith (0.05 : ℚ) (0.20 : ℚ) (mispricingIndex (66/100 : ℚ) (1/2 : ℚ)) = Tier.LEAN := by
  constructor
  · have h : jsRound ((66/100 : ℚ) * 100) = 66 := by
      unfold jsRound
      norm_num
    rw [h]
    rfl
  · have h : mispricingIndex (66/100 : ℚ) (1/2 : ℚ) = 4/25 := by
      unfold mispricingIndex clamp
      norm_num
    rw [h]
    unfold tierWith
    rw [abs_of_nonneg (by norm_num)]
    norm_num

/-- From useAppStore.ts: one point of the probability history chart. -/
structure ProbPoint where
  time : ℚ
  model : ℚ
  market : ℚ
  deriving DecidableEq, Repr

/-- From useAppStore.ts. -/
def MAX_HISTORY_POINTS : ℕ := 60

/-- From useAppStore.ts: addProbabilityPoint appends the new point and,
when the history exceeds MAX_HISTORY_POINTS, keeps only the trailing
slice of that length (slice(-MAX_HISTORY_POINTS)). -/
def addProbabilityPoint (probabilityHistory : List ProbPoint) (p : ProbPoint) : List ProbPoint :=
  let newHistory := probabilityHistory ++ [p]
  if newHistory.length > MAX_HISTORY_POINTS then
    newHistory.drop (newHistory.length - MAX_HISTORY_POINTS)
  else newHistory

/-- C4: starting from the empty history, any sequence of appended points
leaves exactly the most recent MAX_HISTORY_POINTS entries in arrival
order (the oldest entries are dropped), so the stored history never
exceeds MAX_HISTORY_POINTS = 60 entries. -/
theorem C4_bounded_history (ps : List ProbPoint) :
    ps.foldl addProbabilityPoint [] = ps.drop (ps.length - MAX_HISTORY_POINTS) ∧
    (ps.foldl addProbabilityPoint []).length ≤ MAX_HISTORY_POINTS := by
  have key : ∀ l : List ProbPoint,
      l.foldl addProbabilityPoint [] = l.drop (l.length - MAX_HISTORY_POINTS) := by
    intro l
    induction l using List.reverseRecOn with
    | nil => simp
    | append_singleton l p ih =>
      rw [List.foldl_append, List.foldl_cons, List.foldl_nil, ih]
      unfold addProbabilityPoint MAX_HISTORY_POINTS
      simp only [List.length_append, List.length_drop, List.length_singleton]
      rcases Nat.lt_or_ge l.length 60 with h | h
      · have h0 : l.length - 60 = 0 := Nat.sub_eq_zero_of_le (Nat.le_of_lt h)
        have h1 : l.length + 1 - 60 = 0 := Nat.sub_eq_zero_of_le h
        rw [h0, h1]
        simp only [List.drop_zero]
        rw [if_neg (by omega)]
      · have hd : (l.drop (l.length - 60)).length = 60 := by
          rw [List.length_drop]
          omega
        rw [if_pos (by omega)]
        rw [List.drop_append_of_le_length (by omega), List.drop_append_of_le_length (by omega)]
        rw [List.drop_drop]
        have h2 : l.length - 60 + (l.length - (l.length - 60) + 1 - 60)
            = l.length + 1 - 60 := by omega
        rw [h2]
  refine ⟨key ps, ?_⟩
  rw [key ps, List.length_drop]
  omega

/-- From useGameStore.js: the client game store state. -/
structure GameStoreState where
  winProbability : ℚ
  gameTime : ℚ
  isConnected : Bool
  lastUpdate : ℚ
  deriving DecidableEq, Repr

/-- From useGameStore.js: the initial store; lastUpdate is Date.now() at
creation, passed here as now. -/
def initialGameStore (now : ℚ) : GameStoreState :=
  { winProbability := 0.5, gameTime := 0, isConnected := false, lastUpdate := now }

/-- From useGameStore.js. -/
def setWinProbability (prob : ℚ) (s : GameStoreState) : GameStoreState :=
  { s with winProbability := prob }

/-- From useGameStore.js. -/
def setGameTime (time : ℚ) (s : GameStoreState) : GameStoreState :=
  { s with gameTime := time }

/-- From useGameStore.js. -/
def setConnectionStatus (status : Bool) (s : GameStoreState) : GameStoreState :=
  { s with isConnected := status }

/-- From useGameStore.js: updateLastTimestamp stores Date.now(), passed
here as now. -/
def updateLastTimestamp (now : ℚ) (s : GameStoreState) : GameStoreState :=
  { s with lastUpdate := now }

/-- From useGameStore.js: reset restores the three documented defaults. -/
def reset (s : GameStoreState) : GameStoreState :=
  { s with winProbability := 0.5, gameTime := 0, isConnected := false }

/-- From useWebSocket.js: a parsed websocket payload. -/
structure WsMessage where
  type : String
  win_probability : ℚ
  timestamp : ℚ
  deriving DecidableEq, Repr

/-- From useWebSocket.js: ws.onmessage. JSON.parse is modelled by the
Option-valued argument: none when parsing throws, in which case the catch
block only logs and the state is untouched. The handler is a total
function, so it never raises an uncaught exception. -/
def wsOnMessage (parsed : Option WsMessage) (now : ℚ) (s : GameStoreState) : GameStoreState :=
  match parsed with
  | none => s
  | some data =>
    if data.type = "update" then
      updateLastTimestamp now (setGameTime data.timestamp (setWinProbability data.win_probability s))
    else s

/-- From SpectatePage.tsx: the PredictionData payload; the fields the
handler checks at runtime are Option-valued (none = undefined). -/
structure PredictionData where
  type : Option String
  match_id : Option String
  game_time : ℚ
  gold_diff : ℚ
  xp_diff : ℚ
  networth_velocity : ℚ
  model_win_probability : Option ℚ
  market_implied_probability : ℚ
  mispricing_index : ℚ
  is_mock_odds : Option Bool
  deriving DecidableEq, Repr

/-- From SpectatePage.tsx: the component state (the prediction useState
plus the app store connection status string). -/
structure SpectateState where
  prediction : Option PredictionData
  connectionStatus : String
  deriving DecidableEq, Repr

/-- From SpectatePage.tsx and useAppStore.ts: before any message the
prediction is null and the connection status is connecting. -/
def initialSpectateState : SpectateState :=
  { prediction := none, connectionStatus := "connecting" }

/-- From SpectatePage.tsx: ws.onmessage; only a parsed message whose type
is update and whose model_win_probability is present stores a prediction;
the catch block (parse failure, the none case) only logs. -/
def spectateOnMessage (parsed : Option PredictionData) (s : SpectateState) : SpectateState :=
  match parsed with
  | none => s
  | some data =>
    if data.type = some "update" ∧ data.model_win_probability ≠ none then
      { s with prediction := some data }
    else s

/-- From SpectatePage.tsx: radiantProb is the stored prediction's
model_win_probability, defaulting to 0.5. -/
def spectateRadiantProb (s : SpectateState) : ℚ :=
  (s.prediction.bind PredictionData.model_win_probability).getD 0.5

/-- From SpectatePage.tsx: direProb = 1 - radiantProb. -/
def spectateDireProb (s : SpectateState) : ℚ :=
  1 - spectateRadiantProb s

/-- From Dashboard.jsx: the deadman switch condition, true when no fresh
update has arrived for more than 2000 ms while connected. -/
def isDead (now : ℚ) (s : GameStoreState) : Bool :=
  decide (now - s.lastUpdate > 2000) && s.isConnected

/-- From Dashboard.jsx: the values the dashboard renders - the two win
percentages, the game time, the connection badge and the NO DATA badge.
The component has no error branch: it always renders the stored state. -/
structure DashboardView where
  radiantWin : ℚ
  direWin : ℚ
  gameTime : ℚ
  showLive : Bool
  showNoData : Bool
  deriving DecidableEq, Repr

/-- From Dashboard.jsx: radiantWin = winProbability * 100 and
direWin = 100 - winProbability * 100; NO DATA is shown exactly when the
deadman switch fires. -/
def renderDashboard (now : ℚ) (s : GameStoreState) : DashboardView :=
  { radiantWin := s.winProbability * 100
  , direWin := 100 - s.winProbability * 100
  , gameTime := s.gameTime
  , showLive := s.isConnected
  , showNoData := isDead now s }

/-- C5: each message handler is a total function of the parse result (a
non-JSON payload is the none case of its catch block), and on a parse
failure every field of the client state is left unchanged. -/
theorem C5_parse_failure_no_change (now : ℚ) (s : GameStoreState) (ss : SpectateState) :
    wsOnMessage none now s = s ∧
    (wsOnMessage none now s).winProbability = s.winProbability ∧
    (wsOnMessage none now s).gameTime = s.gameTime ∧
    (wsOnMessage none now s).isConnected = s.isConnected ∧
    (wsOnMessage none now s).lastUpdate = s.lastUpdate ∧
    spectateOnMessage none ss = ss ∧
    (spectateOnMessage none ss).prediction = ss.prediction ∧
    (spectateOnMessage none ss).connectionStatus = ss.connectionStatus :=
  ⟨rfl, rfl, rfl, rfl, rfl, rfl, rfl, rfl⟩

/-- C6: while connected, once no fresh update has arrived for more than
the 2000 ms staleness age, the rendered dashboard sets the NO DATA badge
and still shows exactly the stored last-good values (both win
percentages and the game time); no error value replaces the data. -/
theorem C6_stale_no_data (now : ℚ) (s : GameStoreState)
    (hstale : now - s.lastUpdate > 2000) (hconn : s.isConnected = true) :
    (renderDashboard now s).showNoData = true ∧
    (renderDashboard now s).radiantWin = s.winProbability * 100 ∧
    (renderDashboard now s).direWin = 100 - s.winProbability * 100 ∧
    (renderDashboard now s).gameTime = s.gameTime := by
  refine ⟨?_, rfl, rfl, rfl⟩
  unfold renderDashboard isDead
  rw [hconn]
  simp [hstale]

/-- Witness for C6: at time 3000 against a connected store last updated
at time 0. -/
theorem C6_stale_no_data_witness :
    ((3000 : ℚ) - (setConnectionStatus true (initialGameStore 0)).lastUpdate > 2000) ∧
    (renderDashboard 3000 (setConnectionStatus true (initialGameStore 0))).showNoData = true :=
  ⟨by norm_num [setConnectionStatus, initialGameStore],
   (C6_stale_no_data 3000 (setConnectionStatus true (initialGameStore 0))
     (by norm_num [setConnectionStatus, initialGameStore]) rfl).1⟩

/-- Modelled from the spec: a published ModelArtifact holds a classifier
blob and a calibrator blob, each tagged here with the model version that
produced it, plus the artifact's version id; the registry code is not in
src/. -/
structure ModelArtifact where
  classifierVersion : ℕ
  calibratorVersion : ℕ
  version : ℕ
  deriving DecidableEq, Repr

/-- An artifact is coherent when both of its blobs come from its own
version, as the Retrainer builds candidates. -/
def coherentArtifact (a : ModelArtifact) : Prop :=
  a.classifierVersion = a.version ∧ a.calibratorVersion = a.version

instance (a : ModelArtifact) : Decidable (coherentArtifact a) := by
  unfold coherentArtifact
  infer_instance

/-- Modelled from the spec: one step in an interleaving of registry
operations; publish installs a whole artifact in a single atomic step
(the current artifact is an indivisible atomically-replaceable
reference), get reads the current reference. -/
inductive RegistryOp
  | publish (candidate : ModelArtifact)
  | get
  deriving DecidableEq, Repr

/-- Modelled from the spec: running an interleaving of operations from
the current artifact, returning the final artifact and the list of
artifacts observed by the get calls. -/
def runRegistry : ModelArtifact → List RegistryOp → ModelArtifact × List ModelArtifact
  | _, RegistryOp.publish a :: ops => runRegistry a ops
  | cur, RegistryOp.get :: ops =>
    let r := runRegistry cur ops
    (r.1, cur :: r.2)
  | cur, [] => (cur, [])

/-- C7: in any interleaving of publishes of coherent candidates with any
number of get calls, starting from a coherent artifact, no read ever
observes a classifier from one version paired with a calibrator from
another. -/
theorem C7_publish_atomic (init : ModelArtifact) (ops : List RegistryOp)
    (hinit : coherentArtifact init)
    (hpub : ∀ a : ModelArtifact, RegistryOp.publish a ∈ ops → coherentArtifact a) :
    ∀ o ∈ (runRegistry init ops).2, o.classifierVersion = o.calibratorVersion := by
  induction ops generalizing init with
  | nil =>
    intro o ho
    simp [runRegistry] at ho
  | cons op ops ih =>
    cases op with
    | publish a =>
      intro o ho
      simp only [runRegistry] at ho
      exact ih a (hpub a (List.mem_cons_self _ _))
        (fun b hb => hpub b (List.mem_cons_of_mem _ hb)) o ho
    | get =>
      intro o ho
      simp only [runRegistry, List.mem_cons] at ho
      rcases ho with rfl | ho
      · exact hinit.1.trans hinit.2.symm
      · exact ih init hinit (fun b hb => hpub b (List.mem_cons_of_mem _ hb)) o ho

/-- Witness for C7: a read before and a read after publishing version 2
over version 1 both observe matching classifier/calibrator versions. -/
theorem C7_publish_atomic_witness :
    (⟨2, 2, 2⟩ : ModelArtifact).classifierVersion
      = (⟨2, 2, 2⟩ : ModelArtifact).calibratorVersion :=
  C7_publish_atomic ⟨1, 1, 1⟩
    [RegistryOp.get, RegistryOp.publish ⟨2, 2, 2⟩, RegistryOp.get]
    ⟨rfl, rfl⟩
    (by
      intro a ha
      simp only [List.mem_cons, List.not_mem_nil, or_false] at ha
      rcases ha with ha | ha | ha
      · exact absurd ha (by simp)
      · cases ha
        exact ⟨rfl, rfl⟩
      · exact absurd ha (by simp))
    ⟨2, 2, 2⟩ (by decide)

/-- C8: only update messages mutate client state: a successfully parsed
message whose type is not update leaves the game store unchanged, and in
the spectate handler a message that is not an update, or lacks
model_win_probability, leaves the displayed prediction state unchanged. -/
theorem C8_only_updates_mutate (d : WsMessage) (now : ℚ) (s : GameStoreState)
    (p : PredictionData) (ss : SpectateState) :
    (d.type ≠ "update" → wsOnMessage (some d) now s = s) ∧
    (p.type ≠ some "update" → spectateOnMessage (some p) ss = ss) ∧
    (p.model_win_probability = none → spectateOnMessage (some p) ss = ss) := by
  refine ⟨?_, ?_, ?_⟩
  · intro h
    simp [wsOnMessage, h]
  · intro h
    simp [spectateOnMessage, h]
  · intro h
    simp [spectateOnMessage, h]

/-- Witness for C8: a ping message leaves the game store untouched, and
an update message without model_win_probability leaves the spectate
state untouched. -/
theorem C8_only_updates_mutate_witness :
    wsOnMessage (some ⟨"ping", 0.7, 5⟩) 1000 (initialGameStore 0) = initialGameStore 0 ∧
    spectateOnMessage
      (some ⟨some "update", none, 10, 0, 0, 0, none, 0.5, 0, none⟩)
      initialSpectateState = initialSpectateState :=
  ⟨(C8_only_updates_mutate ⟨"ping", 0.7, 5⟩ 1000 (initialGameStore 0)
      ⟨some "update", none, 10, 0, 0, 0, none, 0.5, 0, none⟩ initialSpectateState).1
      (by decide),
   (C8_only_updates_mutate ⟨"ping", 0.7, 5⟩ 1000 (initialGameStore 0)
      ⟨some "update", none, 10, 0, 0, 0, none, 0.5, 0, none⟩ initialSpectateState).2.2
      rfl⟩

/-- C9: before the first update the game store holds the documented
defaults - win probability exactly 0.5, game time 0, disconnected - and
reset restores exactly those defaults; the spectate page with no stored
prediction displays an even 50/50. -/
theorem C9_documented_defaults (now : ℚ) (s : GameStoreState) :
    (initialGameStore now).winProbability = 0.5 ∧
    (initialGameStore now).gameTime = 0 ∧
    (initialGameStore now).isConnected = false ∧
    (reset s).winProbability = 0.5 ∧
    (reset s).gameTime = 0 ∧
    (reset s).isConnected = false ∧
    spectateRadiantProb initialSpectateState = 0.5 ∧
    spectateDireProb initialSpectateState = 0.5 := by
  refine ⟨rfl, rfl, rfl, rfl, rfl, rfl, rfl, ?_⟩
  norm_num [spectateDireProb, spectateRadiantProb, initialSpectateState]

/-- C10: the displayed Dire probability is the exact complement of the
displayed Radiant probability: in every spectate state the two values
sum to 1, after an update carrying probability p they are p and 1 - p,
and the dashboard percentages likewise sum to 100. -/
theorem C10_complement (ss : SpectateState) (d : PredictionData) (p : ℚ)
    (now : ℚ) (s : GameStoreState) :
    spectateDireProb ss = 1 - spectateRadiantProb ss ∧
    spectateRadiantProb ss + spectateDireProb ss = 1 ∧
    (d.type = some "update" → d.model_win_probability = some p →
      spectateRadiantProb (spectateOnMessage (some d) ss) = p ∧
      spectateDireProb (spectateOnMessage (some d) ss) = 1 - p) ∧
    (renderDashboard now s).radiantWin + (renderDashboard now s).direWin = 100 := by
  refine ⟨rfl, by unfold spectateDireProb; ring, ?_, by unfold renderDashboard; ring⟩
  intro ht hp
  have hstep : spectateOnMessage (some d) ss = { ss with prediction := some d } := by
    simp [spectateOnMessage, ht, hp]
  constructor
  · simp [spectateRadiantProb, hstep, hp]
  · simp [spectateDireProb, spectateRadiantProb, hstep, hp]

/-- Witness for C10: after an update carrying probability 0.7 the page
shows 0.7 for Radiant and 0.3 for Dire. -/
theorem C10_complement_witness :
    spectateRadiantProb (spectateOnMessage
      (some ⟨some "update", none, 10, 0, 0, 0, some (0.7 : ℚ), 0.5, 0.2, some true⟩)
      initialSpectateState) = 0.7 ∧
    spectateDireProb (spectateOnMessage
      (some ⟨some "update", none, 10, 0, 0, 0, some (0.7 : ℚ), 0.5, 0.2, some true⟩)
      initialSpectateState) = 1 - 0.7 :=
  (C10_complement initialSpectateState
    ⟨some "update", none, 10, 0, 0, 0, some (0.7 : ℚ), 0.5, 0.2, some true⟩
    (0.7 : ℚ) 0 (initialGameStore 0)).2.2.1 rfl rfl

end Chronosphere
